import Mathlib

/-!
Shallow embedding of `src/Practice/combine_emissions.py` (the corporate GHG
emissions calculator): the scope calculators, the footprint aggregator, the
reduction pathway engine, the roadmap and the cost-benefit analysis.

Python floats are modelled as exact rationals (`ℚ`).  Python's `/` raises
`ZeroDivisionError` when the denominator is zero (for ints and floats alike),
so divisions whose denominator can be zero are modelled with `pydiv`, which
returns `Except PyError ℚ`; functions containing such a division return
`Except PyError _`, the `.error` case corresponding to the uncaught Python
exception.  Responses of the external emission-factor service are modelled as
`Option ℚ`: `some e` for a 200 response whose body carries `emissions.CO2e`
`= e`, and `none` for every non-success outcome (network failure, non-2xx
status, malformed body) — the code only distinguishes `status_code == 200`
from everything else.  Python dicts built by the calculators are modelled as
insertion-ordered association lists.
-/

namespace CombineEmissions

/-- Runtime errors the embedded Python code can raise. -/
inductive PyError where
  | zeroDivisionError
deriving Repr, DecidableEq

/-- Python true division: raises `ZeroDivisionError` when the denominator is
zero, otherwise returns the exact quotient. -/
def pydiv (a b : ℚ) : Except PyError ℚ :=
  if b = 0 then .error .zeroDivisionError else .ok (a / b)

/-- The `company_data` dict from `main` (and the `.get` defaults used by the
calculators).  The default field values are the literals of the example
profile in `main`; each field may be overridden, modelling an arbitrary
caller-supplied profile. -/
structure CompanyData where
  employee_count : ℚ := 100
  heating_fuel_amount : ℚ := 50000
  fleet_size : ℚ := 10
  fleet_fuel : ℚ := 10000
  refrigerant_leakage : ℚ := 5
  electricity_consumption : ℚ := 500000
  renewable_energy_percent : ℚ := 30
  annual_procurement_spend : ℚ := 5000000
  capital_expenditure : ℚ := 1000000
  annual_air_miles : ℚ := 500000
  avg_commute_miles : ℚ := 20
  sells_energy_using_products : Bool := false
  sells_physical_products : Bool := false
  products_sold : ℚ := 10000
  product_lifetime_kwh : ℚ := 1000
  annual_product_weight_tonnes : ℚ := 100
deriving Repr, DecidableEq

/-- One response per endpoint of the emission-factor service, as consumed by
the calculators: `some e` iff the call returned status 200 with
`emissions.CO2e = e`; `none` for any non-success outcome. -/
structure ServiceResponses where
  stationary : Option ℚ := none
  mobile : Option ℚ := none
  fugitive : Option ℚ := none
  location_based : Option ℚ := none
  market_based : Option ℚ := none
  business_travel : Option ℚ := none
deriving Repr, DecidableEq

/-- Python `dict.get(key, default)` on an insertion-ordered association
list. -/
def dictGet (d : List (String × ℚ)) (k : String) (dflt : ℚ) : ℚ :=
  match d.find? (fun p => p.1 == k) with
  | some p => p.2
  | none => dflt

/-- `calculate_scope1_emissions` (lines 66-148): each of the three Scope 1
categories is added to the running total and to the breakdown dict only when
its service call returns status 200; on any other outcome the category is
skipped — no fallback estimator, no zero entry.  Returns
`(scope1_total, scope1_breakdown)`. -/
def calculate_scope1_emissions (resp : ServiceResponses) : ℚ × List (String × ℚ) :=
  let scope1_total : ℚ := 0
  let scope1_breakdown : List (String × ℚ) := []
  let (scope1_total, scope1_breakdown) :=
    match resp.stationary with
    | some e => (scope1_total + e, scope1_breakdown ++ [("stationary_combustion", e)])
    | none => (scope1_total, scope1_breakdown)
  let (scope1_total, scope1_breakdown) :=
    match resp.mobile with
    | some e => (scope1_total + e, scope1_breakdown ++ [("mobile_combustion", e)])
    | none => (scope1_total, scope1_breakdown)
  let (scope1_total, scope1_breakdown) :=
    match resp.fugitive with
    | some e => (scope1_total + e, scope1_breakdown ++ [("fugitive", e)])
    | none => (scope1_total, scope1_breakdown)
  (scope1_total, scope1_breakdown)

/-- One entry of the `electricity_sources` array of the market-based payload
(lines 197-209): a source type, a kWh amount, and an optional explicit
per-kWh emission factor (`some 0` for the renewable-certificates source,
absent for the grid-mix source). -/
structure ElectricitySource where
  source_type : String
  amount : ℚ
  emission_factor : Option ℚ
deriving Repr, DecidableEq

/-- The `electricity_sources` list of the market-based payload built by
`calculate_scope2_emissions` (lines 197-209): consumption is split into a
grid-mix portion `kwh * (1 - renewable/100)` and a renewable-certificates
portion `kwh * (renewable/100)` carrying an explicit emission factor 0. -/
def market_payload_sources (cd : CompanyData) : List ElectricitySource :=
  [⟨"grid_mix",
    cd.electricity_consumption * (1 - cd.renewable_energy_percent / 100), none⟩,
   ⟨"renewable_energy_certificates",
    cd.electricity_consumption * (cd.renewable_energy_percent / 100), some 0⟩]

/-- `calculate_scope2_emissions` (lines 151-223): both methods start at 0 and
take the service response's `emissions.CO2e` when the call returns 200;
otherwise they stay 0.  Returns `(location_based, market_based)`. -/
def calculate_scope2_emissions (resp : ServiceResponses) : ℚ × ℚ :=
  (resp.location_based.getD 0, resp.market_based.getD 0)

/-- Modelled from the spec: the external Emission Factor Service applied to an
electricity payload, using one per-kWh factor `f` for grid electricity; a
source that carries an explicit `emission_factor` is priced with that factor
instead ("given identical non-negative per-kWh factors", spec section 8). -/
def serviceElectricity (f : ℚ) (sources : List ElectricitySource) : ℚ :=
  (sources.map (fun s => s.amount * s.emission_factor.getD f)).sum

/-- The Scope 2 location-based total under the per-kWh factor model of the
service: the whole consumption (lines 166-178) priced at the grid factor. -/
def scope2_location_model (cd : CompanyData) (f : ℚ) : ℚ :=
  cd.electricity_consumption * f

/-- The Scope 2 market-based total under the per-kWh factor model of the
service: the market payload's sources each priced at their factor and
summed. -/
def scope2_market_model (cd : CompanyData) (f : ℚ) : ℚ :=
  serviceElectricity f (market_payload_sources cd)

/-- `calculate_scope3_emissions` (lines 226-336), translated statement by
statement.  The breakdown dict is built incrementally; in particular
`fuel_energy` (line 260) reads `'stationary_combustion'` from the Scope 3
breakdown built so far — which never contains that key — with default 0.
The business-travel category (lines 292-296) is the only one with a service
call; on a non-200 response it falls back to `annual_air_miles * (15/100000)`.
Categories 11 and 12 are appended only when the corresponding flag is true.
Returns `(scope3_total, scope3_breakdown)`. -/
def calculate_scope3_emissions (resp : ServiceResponses) (cd : CompanyData) :
    ℚ × List (String × ℚ) :=
  let scope3_total : ℚ := 0
  let scope3_breakdown : List (String × ℚ) := []
  let annual_spend := cd.annual_procurement_spend
  let purchased_goods := annual_spend * (35/100000)
  let scope3_breakdown := scope3_breakdown ++ [("purchased_goods", purchased_goods)]
  let scope3_total := scope3_total + purchased_goods
  let capital_spend := cd.capital_expenditure
  let capital_goods := capital_spend * (45/100000)
  let scope3_breakdown := scope3_breakdown ++ [("capital_goods", capital_goods)]
  let scope3_total := scope3_total + capital_goods
  let fuel_energy := dictGet scope3_breakdown "stationary_combustion" 0 * (2/10)
  let scope3_breakdown := scope3_breakdown ++ [("fuel_energy_related", fuel_energy)]
  let scope3_total := scope3_total + fuel_energy
  let upstream_transport := annual_spend * (8/100000)
  let scope3_breakdown := scope3_breakdown ++ [("upstream_transport", upstream_transport)]
  let scope3_total := scope3_total + upstream_transport
  let employees := cd.employee_count
  let waste_emissions := employees * (2/10)
  let scope3_breakdown := scope3_breakdown ++ [("waste", waste_emissions)]
  let scope3_total := scope3_total + waste_emissions
  let business_travel :=
    match resp.business_travel with
    | some e => e
    | none => cd.annual_air_miles * (15/100000)
  let scope3_breakdown := scope3_breakdown ++ [("business_travel", business_travel)]
  let scope3_total := scope3_total + business_travel
  let avg_commute_miles := cd.avg_commute_miles
  let working_days : ℚ := 220
  let commuting := employees * avg_commute_miles * working_days * (4/10000)
  let scope3_breakdown := scope3_breakdown ++ [("commuting", commuting)]
  let scope3_total := scope3_total + commuting
  let (scope3_total, scope3_breakdown) :=
    if cd.sells_energy_using_products then
      let use_of_products := cd.products_sold * cd.product_lifetime_kwh * (4/10000)
      (scope3_total + use_of_products,
       scope3_breakdown ++ [("use_of_products", use_of_products)])
    else (scope3_total, scope3_breakdown)
  let (scope3_total, scope3_breakdown) :=
    if cd.sells_physical_products then
      let end_of_life := cd.annual_product_weight_tonnes * (5/10)
      (scope3_total + end_of_life,
       scope3_breakdown ++ [("end_of_life", end_of_life)])
    else (scope3_total, scope3_breakdown)
  (scope3_total, scope3_breakdown)

/-- Insert an entry into a list sorted descending by amount, keeping it after
every strictly larger entry and before every entry that is smaller or equal —
the insertion step of a stable descending sort. -/
def insertDesc (x : String × ℚ) : List (String × ℚ) → List (String × ℚ)
  | [] => [x]
  | y :: ys => if x.2 < y.2 then y :: insertDesc x ys else x :: y :: ys

/-- Stable descending sort by amount, modelling Python's
`list.sort(key=lambda x: x[1], reverse=True)` (line 385): Python's sort is
stable and `reverse=True` inverts the comparison without disturbing ties. -/
def sortDescStable : List (String × ℚ) → List (String × ℚ)
  | [] => []
  | x :: xs => insertDesc x (sortDescStable xs)

/-- The `all_categories` list built at lines 375-382: Scope 1 breakdown
entries, one synthetic Scope 2 electricity entry carrying the location-based
amount, then Scope 3 breakdown entries, each labelled with its scope. -/
def all_categories (b1 : List (String × ℚ)) (scope2_location : ℚ)
    (b3 : List (String × ℚ)) : List (String × ℚ) :=
  b1.map (fun p => ("Scope 1 - " ++ p.1, p.2))
    ++ [("Scope 2 - Electricity", scope2_location)]
    ++ b3.map (fun p => ("Scope 3 - " ++ p.1, p.2))

/-- The values computed (and printed) by `analyze_complete_footprint`. -/
structure AnalysisResult where
  total_location : ℚ
  total_market : ℚ
  scope1_pct : ℚ
  scope2_pct : ℚ
  scope3_pct : ℚ
  hotspots : List (String × ℚ × ℚ)
  intensity : ℚ
deriving Repr, DecidableEq

/-- `analyze_complete_footprint` (lines 339-418).  The per-scope percentage
shares (lines 359-361) divide by `total_location` with no guard, so a zero
total raises `ZeroDivisionError` at `scope1_pct`.  The hotspot list is the
top 5 of the stable descending sort of `all_categories`, each with its share
of `total_location` (lines 385-388); these later divisions by
`total_location` are written with plain `/` because the `scope1_pct` division
has already raised whenever `total_location = 0`.  The intensity (lines
392-393) divides `total_location` by the hard-coded default `employees = 100`,
ignoring the profile's employee count. -/
def analyze_complete_footprint (scope1 scope2_location scope2_market scope3 : ℚ)
    (b1 b3 : List (String × ℚ)) : Except PyError AnalysisResult := do
  let total_location := scope1 + scope2_location + scope3
  let total_market := scope1 + scope2_market + scope3
  let scope1_pct := (← pydiv scope1 total_location) * 100
  let scope2_pct := (← pydiv scope2_location total_location) * 100
  let scope3_pct := (← pydiv scope3 total_location) * 100
  let sorted := sortDescStable (all_categories b1 scope2_location b3)
  let hotspots := (sorted.take 5).map (fun p => (p.1, p.2, p.2 / total_location * 100))
  let intensity := total_location / 100
  pure ⟨total_location, total_market, scope1_pct, scope2_pct, scope3_pct,
        hotspots, intensity⟩

/-- One line of the 1.5°C-aligned target table printed by
`calculate_reduction_pathway` (lines 438-443). -/
structure ReductionTarget where
  year : ℕ
  target : ℚ
  reduction : ℚ
  reduction_pct : ℚ
deriving Repr, DecidableEq

/-- The values computed by `calculate_reduction_pathway`. -/
structure PathwayResult where
  targets : List ReductionTarget
  target_2030 : ℚ
  target_2050 : ℚ
  annual_reduction_2030 : ℚ
deriving Repr, DecidableEq

/-- The science-based annual reduction rate, 4.2% (line 432). -/
def annual_reduction_rate : ℚ := (42/1000)

/-- The horizon years of the target table (line 438). -/
def pathway_years : List ℕ := [1, 3, 5, 10]

/-- Sequential effectful map over a list, modelling a Python `for` loop whose
body can raise: the first raised error aborts the whole loop. -/
def exceptMap (f : α → Except PyError β) : List α → Except PyError (List β)
  | [] => .ok []
  | x :: xs => do
    let y ← f x
    let ys ← exceptMap f xs
    pure (y :: ys)

/-- `calculate_reduction_pathway` (lines 421-465).  For each horizon year the
target is `total * (1 - (42/1000)) ^ year`; `reduction_pct` divides by
`total_emissions` with no guard, so a zero baseline raises
`ZeroDivisionError` in the first loop iteration.  A negative baseline is
processed normally.  The 2030/2050 milestones are flat 50% and 90% cuts and
the linear annual action divides by the constant `years_to_2030 = 6`. -/
def calculate_reduction_pathway (total_emissions : ℚ) :
    Except PyError PathwayResult := do
  let targets ← exceptMap (fun year => do
      let target := total_emissions * (1 - annual_reduction_rate) ^ year
      let reduction := total_emissions - target
      let reduction_pct := (← pydiv reduction total_emissions) * 100
      pure (ReductionTarget.mk year target reduction reduction_pct))
    pathway_years
  let target_2030 := total_emissions * (5/10)
  let target_2050 := total_emissions * (1/10)
  let years_to_2030 : ℚ := 6
  let annual_reduction_2030 := (total_emissions - target_2030) / years_to_2030
  pure ⟨targets, target_2030, target_2050, annual_reduction_2030⟩

/-- `create_reduction_roadmap` (lines 468-533): six fixed-fraction reduction
potentials read from the subtotals and the breakdown dicts with `.get(_, 0)`,
their sum, and the achievable percentage, which divides by
`scope1 + scope2 + scope3` with no guard. -/
def create_reduction_roadmap (scope1 scope2 scope3 : ℚ)
    (b1 b3 : List (String × ℚ)) : Except PyError (List ℚ × ℚ × ℚ) := do
  let potential_1 := scope2 * (20/100)
  let potential_2 := dictGet b3 "business_travel" 0 * (30/100)
  let potential_3 := scope2 * (50/100)
  let potential_4 := dictGet b1 "mobile_combustion" 0 * (40/100)
  let potential_5 := dictGet b3 "purchased_goods" 0 * (25/100)
  let potential_6 := dictGet b1 "stationary_combustion" 0 * (60/100)
  let total_potential := potential_1 + potential_2 + potential_3
    + potential_4 + potential_5 + potential_6
  let achievable_pct := (← pydiv total_potential (scope1 + scope2 + scope3)) * 100
  pure ([potential_1, potential_2, potential_3, potential_4, potential_5,
         potential_6], total_potential, achievable_pct)

/-- One entry of the fixed `strategies` catalog of `analyze_costs_and_benefits`
(lines 563-592), including its hard-coded `payback_years` field. -/
structure Strategy where
  name : String
  cost : ℚ
  annual_savings : ℚ
  emission_reduction : ℚ
  payback_years : ℚ
deriving Repr, DecidableEq

/-- The fixed strategy catalog (lines 563-592). -/
def strategies : List Strategy :=
  [⟨"LED Lighting", 50000, 15000, 50, (33/10)⟩,
   ⟨"Solar Installation", 500000, 75000, 200, (67/10)⟩,
   ⟨"Fleet Electrification", 200000, 30000, 100, (67/10)⟩,
   ⟨"Building Insulation", 100000, 20000, 75, (50/10)⟩]

/-- The fixed internal carbon price (line 553). -/
def carbon_price : ℚ := 50

/-- The figures printed per strategy by `analyze_costs_and_benefits`
(lines 594-603). -/
structure StrategyReport where
  name : String
  investment : ℚ
  annual_savings : ℚ
  emission_reduction : ℚ
  carbon_value : ℚ
  total_annual_value : ℚ
  payback_years : ℚ
deriving Repr, DecidableEq

/-- `analyze_costs_and_benefits` (lines 536-611): the annual carbon liability
`total_emissions * 50`, and for each catalog strategy the derived
`carbon_value` and `total_annual_value` together with the catalog's stored
`payback_years` field, which is printed as-is — it is never recomputed. -/
def analyze_costs_and_benefits (total_emissions : ℚ) : ℚ × List StrategyReport :=
  (total_emissions * carbon_price,
   strategies.map (fun s =>
     let carbon_value := s.emission_reduction * carbon_price
     let total_annual_value := s.annual_savings + carbon_value
     ⟨s.name, s.cost, s.annual_savings, s.emission_reduction, carbon_value,
      total_annual_value, s.payback_years⟩))

/-- Rounding to one decimal place (Python's `%.1f` formatting up to
half-up rounding of the catalog's figures). -/
def round1 (x : ℚ) : ℚ := (⌊x * 10 + 1 / 2⌋ : ℤ) / 10

/-- Everything `main` computes after authentication succeeds. -/
structure RunResult where
  scope1 : ℚ
  scope2_location : ℚ
  scope2_market : ℚ
  scope3 : ℚ
  analysis : AnalysisResult
  pathway : PathwayResult
  roadmap : List ℚ × ℚ × ℚ
  cost_benefit : ℚ × List StrategyReport
  per_employee : ℚ
  scope3_share_pct : ℚ
  renewable_reduction_pct : ℚ
deriving Repr, DecidableEq

/-- The computational pipeline of `main` (lines 614-720) after a successful
authentication, for an arbitrary profile and arbitrary service responses.
There is no profile validation anywhere: the scope calculators run directly
on the supplied values.  The executive summary (lines 698-702) divides by the
profile's `employee_count`, by `total_location` and by `scope2_location`,
each unguarded. -/
def runCalculator (resp : ServiceResponses) (cd : CompanyData) :
    Except PyError RunResult := do
  let scope1 := (calculate_scope1_emissions resp).1
  let b1 := (calculate_scope1_emissions resp).2
  let scope2_location := (calculate_scope2_emissions resp).1
  let scope2_market := (calculate_scope2_emissions resp).2
  let scope3 := (calculate_scope3_emissions resp cd).1
  let b3 := (calculate_scope3_emissions resp cd).2
  let analysis ← analyze_complete_footprint scope1 scope2_location scope2_market
    scope3 b1 b3
  let pw ← calculate_reduction_pathway analysis.total_location
  let rm ← create_reduction_roadmap scope1 scope2_location scope3 b1 b3
  let cb := analyze_costs_and_benefits analysis.total_location
  let per_employee ← pydiv analysis.total_location cd.employee_count
  let scope3_share ← pydiv scope3 analysis.total_location
  let renewable_reduction ← pydiv (scope2_location - scope2_market) scope2_location
  pure ⟨scope1, scope2_location, scope2_market, scope3, analysis, pw, rm, cb,
        per_employee, scope3_share * 100, renewable_reduction * 100⟩

/-- A fixture: every service call succeeds and reports 100 tonnes. -/
def respEx : ServiceResponses :=
  ⟨some 100, some 100, some 100, some 100, some 100, some 100⟩

/-- A fixture: every service call fails (non-2xx, network error or malformed
body). -/
def respAllFail : ServiceResponses := ⟨none, none, none, none, none, none⟩

/-- A fixture: an invalid profile — negative employee count, renewable share
above 100, negative refrigerant leakage — everything else at the example
values. -/
def cdBad : CompanyData :=
  { employee_count := -5, renewable_energy_percent := 150,
    refrigerant_leakage := -3 }

/-! General lemmas about the embedded definitions, shared by the claim
theorems below. -/

/-- `pydiv` succeeds and returns the exact quotient whenever the denominator
is nonzero. -/
theorem pydiv_ok {a b : ℚ} (h : b ≠ 0) : pydiv a b = .ok (a / b) := by
  simp [pydiv, h]

/-- Every element of `insertDesc x l` is `x` or an element of `l`. -/
theorem mem_insertDesc {x y : String × ℚ} {l : List (String × ℚ)}
    (h : y ∈ insertDesc x l) : y = x ∨ y ∈ l := by
  induction l with
  | nil => simpa [insertDesc] using h
  | cons z zs ih =>
    rw [insertDesc] at h
    split at h
    · rcases List.mem_cons.1 h with h | h
      · right; exact h ▸ List.mem_cons_self z zs
      · rcases ih h with h | h
        · left; exact h
        · right; exact List.mem_cons_of_mem _ h
    · rcases List.mem_cons.1 h with h | h
      · left; exact h
      · right; exact h

/-- Inserting into a list that is sorted descending by amount keeps it
sorted. -/
theorem pairwise_insertDesc {x : String × ℚ} {l : List (String × ℚ)}
    (hl : l.Pairwise (fun a b => b.2 ≤ a.2)) :
    (insertDesc x l).Pairwise (fun a b => b.2 ≤ a.2) := by
  induction l with
  | nil => simp [insertDesc]
  | cons y ys ih =>
    rw [List.pairwise_cons] at hl
    obtain ⟨hy, hys⟩ := hl
    rw [insertDesc]
    split
    · rename_i hxy
      rw [List.pairwise_cons]
      refine ⟨?_, ih hys⟩
      intro b hb
      rcases mem_insertDesc hb with rfl | hb
      · exact le_of_lt hxy
      · exact hy b hb
    · rename_i hxy
      rw [List.pairwise_cons]
      refine ⟨?_, List.pairwise_cons.2 ⟨hy, hys⟩⟩
      intro b hb
      rcases List.mem_cons.1 hb with rfl | hb
      · exact le_of_not_lt hxy
      · exact le_trans (hy b hb) (le_of_not_lt hxy)

/-- The output of `sortDescStable` is sorted descending by amount: any entry
is ≥ every entry after it. -/
theorem sortDescStable_pairwise (l : List (String × ℚ)) :
    (sortDescStable l).Pairwise (fun a b => b.2 ≤ a.2) := by
  induction l with
  | nil => simp [sortDescStable]
  | cons x xs ih => exact pairwise_insertDesc ih

/-- Restricting `insertDesc x l` to the entries of one given amount `v` keeps
the original order, with `x` first iff its amount is `v`: every entry `x` is
inserted after has an amount strictly above `x`'s. -/
theorem filter_insertDesc (x : String × ℚ) (l : List (String × ℚ)) (v : ℚ) :
    (insertDesc x l).filter (fun p => p.2 == v) =
      (if x.2 = v then [x] else []) ++ l.filter (fun p => p.2 == v) := by
  induction l with
  | nil => by_cases hv : x.2 = v <;> simp [insertDesc, hv]
  | cons y ys ih =>
    rw [insertDesc]
    split
    · rename_i hxy
      by_cases hv : x.2 = v
      · have hyv : ¬(y.2 = v) := by
          intro hyv
          rw [hv] at hxy
          exact absurd hyv (ne_of_gt (hv ▸ hxy))
        simp only [List.filter_cons, hyv, ih, hv, if_true]
        simp [hyv]
      · simp only [List.filter_cons, ih, hv, if_false]
        simp
    · rename_i hxy
      by_cases hv : x.2 = v <;> simp [List.filter_cons, hv]

/-- Stability of `sortDescStable`: for each amount `v` the subsequence of
entries with amount `v` is exactly the input's subsequence of entries with
amount `v`, in the input's order. -/
theorem filter_sortDescStable (l : List (String × ℚ)) (v : ℚ) :
    (sortDescStable l).filter (fun p => p.2 == v) = l.filter (fun p => p.2 == v) := by
  induction l with
  | nil => rfl
  | cons x xs ih =>
    rw [sortDescStable, filter_insertDesc, List.filter_cons, ih]
    by_cases hv : x.2 = v <;> simp [hv]

/-- `analyze_complete_footprint` in the non-degenerate case: when the
location-based total is nonzero, all shares are computed and the hotspots are
the top 5 of the stable descending sort. -/
theorem analyze_ok (s1 s2l s2m s3 : ℚ) (b1 b3 : List (String × ℚ))
    (h : s1 + s2l + s3 ≠ 0) :
    analyze_complete_footprint s1 s2l s2m s3 b1 b3 =
      .ok ⟨s1 + s2l + s3, s1 + s2m + s3,
           s1 / (s1 + s2l + s3) * 100, s2l / (s1 + s2l + s3) * 100,
           s3 / (s1 + s2l + s3) * 100,
           ((sortDescStable (all_categories b1 s2l b3)).take 5).map
             (fun p => (p.1, p.2, p.2 / (s1 + s2l + s3) * 100)),
           (s1 + s2l + s3) / 100⟩ := by
  simp only [analyze_complete_footprint, pydiv_ok h]
  rfl

/-- `calculate_reduction_pathway` in the non-degenerate case: a nonzero
baseline yields the four compounding targets and the flat milestones. -/
theorem pathway_ok (b : ℚ) (h : b ≠ 0) :
    calculate_reduction_pathway b =
      .ok ⟨[⟨1, b * (1 - annual_reduction_rate) ^ 1,
             b - b * (1 - annual_reduction_rate) ^ 1,
             (b - b * (1 - annual_reduction_rate) ^ 1) / b * 100⟩,
            ⟨3, b * (1 - annual_reduction_rate) ^ 3,
             b - b * (1 - annual_reduction_rate) ^ 3,
             (b - b * (1 - annual_reduction_rate) ^ 3) / b * 100⟩,
            ⟨5, b * (1 - annual_reduction_rate) ^ 5,
             b - b * (1 - annual_reduction_rate) ^ 5,
             (b - b * (1 - annual_reduction_rate) ^ 5) / b * 100⟩,
            ⟨10, b * (1 - annual_reduction_rate) ^ 10,
             b - b * (1 - annual_reduction_rate) ^ 10,
             (b - b * (1 - annual_reduction_rate) ^ 10) / b * 100⟩],
           b * (5/10), b * (1/10), (b - b * (5/10)) / 6⟩ := by
  simp only [calculate_reduction_pathway, pathway_years, exceptMap, pydiv_ok h]
  rfl

/-- `create_reduction_roadmap` in the non-degenerate case. -/
theorem roadmap_ok (s1 s2 s3 : ℚ) (b1 b3 : List (String × ℚ))
    (h : s1 + s2 + s3 ≠ 0) :
    create_reduction_roadmap s1 s2 s3 b1 b3 =
      .ok ([s2 * (20/100), dictGet b3 "business_travel" 0 * (30/100),
            s2 * (50/100), dictGet b1 "mobile_combustion" 0 * (40/100),
            dictGet b3 "purchased_goods" 0 * (25/100),
            dictGet b1 "stationary_combustion" 0 * (60/100)],
           s2 * (20/100) + dictGet b3 "business_travel" 0 * (30/100)
             + s2 * (50/100) + dictGet b1 "mobile_combustion" 0 * (40/100)
             + dictGet b3 "purchased_goods" 0 * (25/100)
             + dictGet b1 "stationary_combustion" 0 * (60/100),
           (s2 * (20/100) + dictGet b3 "business_travel" 0 * (30/100)
             + s2 * (50/100) + dictGet b1 "mobile_combustion" 0 * (40/100)
             + dictGet b3 "purchased_goods" 0 * (25/100)
             + dictGet b1 "stationary_combustion" 0 * (60/100)) / (s1 + s2 + s3) * 100) := by
  simp only [create_reduction_roadmap, pydiv_ok h]
  rfl

/-- Binding a successful `Except` computation applies the continuation. -/
theorem except_bind_ok {α β : Type} (x : α) (f : α → Except PyError β) :
    (Except.ok x >>= f) = f x := rfl

/-- Binding a failed `Except` computation propagates the error — a raised
Python exception aborts the rest of the function. -/
theorem except_bind_error {α β : Type} (e : PyError) (f : α → Except PyError β) :
    (Except.error e >>= f) = .error e := rfl

/-- The whole `main` pipeline completes without error whenever the three
unguarded denominators — the location-based total, the profile's employee
count and the Scope 2 location-based subtotal — are nonzero; the profile's
values themselves are never validated. -/
theorem run_ok (resp : ServiceResponses) (cd : CompanyData)
    (h : (calculate_scope1_emissions resp).1 + (calculate_scope2_emissions resp).1
        + (calculate_scope3_emissions resp cd).1 ≠ 0)
    (he : cd.employee_count ≠ 0)
    (hs2 : (calculate_scope2_emissions resp).1 ≠ 0) :
    (runCalculator resp cd).isOk = true := by
  simp only [runCalculator, analyze_ok _ _ _ _ _ _ h, pathway_ok _ h,
    roadmap_ok _ _ _ _ _ h, pydiv_ok he, pydiv_ok h, pydiv_ok hs2, except_bind_ok]
  rfl

/-- The location-based footprint total of the `respEx`/`cdBad` fixture run:
scope 1 is 300 (three successful calls of 100), scope 2 location-based is
100, and scope 3 is 2690.2 from the invalid profile's values (including a
negative waste figure from the negative employee count). -/
theorem respEx_cdBad_total :
    (calculate_scope1_emissions respEx).1 + (calculate_scope2_emissions respEx).1
      + (calculate_scope3_emissions respEx cdBad).1 = 30902/10 := by
  simp [calculate_scope1_emissions, calculate_scope2_emissions,
    calculate_scope3_emissions, respEx, cdBad, dictGet]
  norm_num

/-! The claim theorems. -/

/-- Claim C1 (code-bug evaluation): the `fuel_energy_related` amount computed
by `calculate_scope3_emissions` is 0 for every service response and every
profile, because line 260 reads `'stationary_combustion'` from the Scope 3
breakdown being built (where the key never exists) instead of the Scope 1
breakdown — which the function does not even receive.  With the `respEx`
responses the Scope 1 stationary amount is 100, so the claimed (and
code-commented) 20% well-to-tank figure would be 20, yet the code yields
0. -/
theorem C1_fuel_energy_always_zero :
    (∀ resp cd, dictGet (calculate_scope3_emissions resp cd).2 "fuel_energy_related" 0 = 0)
    ∧ dictGet (calculate_scope1_emissions respEx).2 "stationary_combustion" 0 = 100
    ∧ (2/10 : ℚ) * 100 = 20 := by
  refine ⟨?_, by decide, by norm_num⟩
  intro resp cd
  cases h1 : cd.sells_energy_using_products <;> cases h2 : cd.sells_physical_products <;>
    simp [calculate_scope3_emissions, dictGet, h1, h2]

/-- Claim C2 counterexample: with all-zero scope figures (total_location = 0)
the aggregator does not report undefined shares — it raises
`ZeroDivisionError` at the first per-scope share computation. -/
theorem C2_counterexample :
    analyze_complete_footprint 0 0 0 0 [] [] = .error .zeroDivisionError := by
  simp [analyze_complete_footprint, pydiv, except_bind_error]

/-- Claim C2 (amended): for every input whose location-based total is zero,
`analyze_complete_footprint` raises `ZeroDivisionError` when computing the
per-scope shares; no undefined-share report is produced. -/
theorem C2_zero_total_raises (s1 s2l s2m s3 : ℚ) (b1 b3 : List (String × ℚ))
    (h : s1 + s2l + s3 = 0) :
    analyze_complete_footprint s1 s2l s2m s3 b1 b3 = .error .zeroDivisionError := by
  simp [analyze_complete_footprint, pydiv, h, except_bind_error]

/-- Witness for C2: a concrete zero-total input on which the analysis raises
the division error. -/
theorem C2_zero_total_raises_witness :
    ((0:ℚ) + 0 + 0 = 0)
    ∧ analyze_complete_footprint 0 0 0 0 [("stationary_combustion", 0)] [] =
        .error .zeroDivisionError :=
  ⟨by norm_num, C2_zero_total_raises 0 0 0 0 [("stationary_combustion", 0)] [] (by norm_num)⟩

/-- Claim C3 counterexample: when every Scope 1 service call fails, the
Scope 1 breakdown is empty — in particular there is no amount-0 entry for
`stationary_combustion`; the key is omitted and no fallback estimator runs. -/
theorem C3_counterexample :
    (calculate_scope1_emissions respAllFail).2 = []
    ∧ ((calculate_scope1_emissions respAllFail).2.find?
        (fun p => p.1 == "stationary_combustion")) = none := by
  decide

/-- Claim C3 (amended): a Scope 1 category appears in the breakdown iff its
service call succeeded (no zero entries, no fallback), the Scope 1 subtotal
sums only the successful categories, Scope 2 amounts default to 0 on
failure, and only Scope 3's business travel falls back to a local estimator
(`annual_air_miles * 0.00015`) on a non-success response. -/
theorem C3_no_fallback_key_omitted (resp : ServiceResponses) (cd : CompanyData) :
    ((calculate_scope1_emissions resp).2.find?
        (fun p => p.1 == "stationary_combustion")).isSome = resp.stationary.isSome
    ∧ ((calculate_scope1_emissions resp).2.find?
        (fun p => p.1 == "mobile_combustion")).isSome = resp.mobile.isSome
    ∧ ((calculate_scope1_emissions resp).2.find?
        (fun p => p.1 == "fugitive")).isSome = resp.fugitive.isSome
    ∧ (calculate_scope1_emissions resp).1
        = resp.stationary.getD 0 + resp.mobile.getD 0 + resp.fugitive.getD 0
    ∧ calculate_scope2_emissions resp = (resp.location_based.getD 0, resp.market_based.getD 0)
    ∧ dictGet (calculate_scope3_emissions resp cd).2 "business_travel" 0
        = resp.business_travel.getD (cd.annual_air_miles * (15/100000)) := by
  rcases hs : resp.stationary with _ | e1 <;>
  rcases hm : resp.mobile with _ | e2 <;>
  rcases hf : resp.fugitive with _ | e3 <;>
  rcases hb : resp.business_travel with _ | e4 <;>
  cases h1 : cd.sells_energy_using_products <;>
  cases h2 : cd.sells_physical_products <;>
    simp [calculate_scope1_emissions, calculate_scope2_emissions,
      calculate_scope3_emissions, dictGet, hs, hm, hf, hb, h1, h2]

/-- Claim C4 counterexample: invoking the reduction pathway with baseline 0
raises `ZeroDivisionError` (no ZeroBaseline report), and a negative baseline
is processed without any error. -/
theorem C4_counterexample :
    calculate_reduction_pathway 0 = .error .zeroDivisionError
    ∧ (calculate_reduction_pathway (-100)).isOk = true := by
  constructor
  · simp [calculate_reduction_pathway, pathway_years, exceptMap, pydiv, except_bind_error]
  · rw [pathway_ok (-100) (by norm_num)]; rfl

/-- Claim C4 (amended): `calculate_reduction_pathway` raises
`ZeroDivisionError` at baseline 0 and completes normally on every nonzero
(including negative) baseline; no ZeroBaseline error is ever surfaced. -/
theorem C4_no_zero_baseline_error (b : ℚ) :
    (b = 0 → calculate_reduction_pathway b = .error .zeroDivisionError)
    ∧ (b ≠ 0 → (calculate_reduction_pathway b).isOk = true) := by
  constructor
  · rintro rfl
    simp [calculate_reduction_pathway, pathway_years, exceptMap, pydiv, except_bind_error]
  · intro h
    rw [pathway_ok b h]; rfl

/-- Witness for C4: the concrete baselines 0 (raises) and −5 (computes). -/
theorem C4_no_zero_baseline_error_witness :
    calculate_reduction_pathway 0 = .error .zeroDivisionError
    ∧ (calculate_reduction_pathway (-5)).isOk = true :=
  ⟨(C4_no_zero_baseline_error 0).1 rfl, (C4_no_zero_baseline_error (-5)).2 (by norm_num)⟩

/-- Claim C5 counterexample: at the code's carbon price of 50, the LED
strategy's reported payback is the hard-coded 3.3 years, yet
investment / total_annual_value = 50000 / 17500 ≈ 2.857 years — the reported
payback is not investment divided by the total annual value. -/
theorem C5_counterexample :
    ((analyze_costs_and_benefits 1000).2.map (fun r => r.payback_years))
      = [33/10, 67/10, 67/10, 50/10]
    ∧ ((analyze_costs_and_benefits 1000).2.map (fun r => (r.investment, r.total_annual_value)))
      = [(50000, 17500), (500000, 85000), (200000, 35000), (100000, 23750)]
    ∧ (33/10 : ℚ) ≠ 50000 / 17500 := by
  refine ⟨?_, ?_, by norm_num⟩ <;>
    norm_num [analyze_costs_and_benefits, strategies, carbon_price]

/-- Claim C5 (amended): for every total-emissions argument, each strategy's
reported payback is the catalog's fixed `payback_years` field — which equals
investment / annual energy savings rounded to one decimal, ignoring the
carbon value — while `carbon_value` and `total_annual_value` are derived
with the fixed carbon price 50; all catalog investments and total annual
values are positive, so no undefined/infinite guard is ever exercised. -/
theorem C5_payback_is_catalog_value (t : ℚ) :
    (analyze_costs_and_benefits t).2.map (fun r => r.payback_years)
      = strategies.map (fun s => s.payback_years)
    ∧ strategies.map (fun s => s.payback_years)
      = strategies.map (fun s => round1 (s.cost / s.annual_savings))
    ∧ (analyze_costs_and_benefits t).2.map (fun r => (r.carbon_value, r.total_annual_value))
      = strategies.map (fun s => (s.emission_reduction * carbon_price,
          s.annual_savings + s.emission_reduction * carbon_price))
    ∧ ((analyze_costs_and_benefits t).2.all
        (fun r => decide (0 < r.investment) && decide (0 < r.total_annual_value))) = true := by
  refine ⟨rfl, ?_, rfl, ?_⟩ <;>
    norm_num [strategies, round1, analyze_costs_and_benefits, carbon_price]

/-- Claim C6 counterexample: on an invalid profile (negative employee count,
renewable share 150, negative refrigerant leakage) the whole pipeline runs to
completion — no InvalidProfile error is surfaced before (or after) the scope
calculations. -/
theorem C6_counterexample :
    (runCalculator respEx cdBad).isOk = true
    ∧ cdBad.renewable_energy_percent > 100
    ∧ cdBad.employee_count < 0
    ∧ cdBad.refrigerant_leakage < 0 := by
  refine ⟨run_ok respEx cdBad ?_ ?_ ?_, by norm_num [cdBad], by norm_num [cdBad],
    by norm_num [cdBad]⟩
  · rw [respEx_cdBad_total]; norm_num
  · norm_num [cdBad]
  · norm_num [calculate_scope2_emissions, respEx]

/-- Claim C6 (amended): the run never validates the profile.  For every
profile — valid or not — and every response set, the pipeline completes
whenever the three unguarded denominators are nonzero, and the offending
values are used as-is: the waste category is `employee_count * 0.2` even for
a negative employee count, and the market payload splits consumption with
the raw renewable share even outside [0,100] (no clamping, no error). -/
theorem C6_no_profile_validation (resp : ServiceResponses) (cd : CompanyData)
    (h : (calculate_scope1_emissions resp).1 + (calculate_scope2_emissions resp).1
        + (calculate_scope3_emissions resp cd).1 ≠ 0)
    (he : cd.employee_count ≠ 0)
    (hs2 : (calculate_scope2_emissions resp).1 ≠ 0) :
    (runCalculator resp cd).isOk = true
    ∧ dictGet (calculate_scope3_emissions resp cd).2 "waste" 0 = cd.employee_count * (2/10)
    ∧ (market_payload_sources cd).map (fun s => s.amount)
        = [cd.electricity_consumption * (1 - cd.renewable_energy_percent / 100),
           cd.electricity_consumption * (cd.renewable_energy_percent / 100)] := by
  refine ⟨run_ok resp cd h he hs2, ?_, rfl⟩
  cases h1 : cd.sells_energy_using_products <;> cases h2 : cd.sells_physical_products <;>
    simp [calculate_scope3_emissions, dictGet, h1, h2]

/-- Witness for C6: the invalid `cdBad` profile runs to completion and its
negative employee count flows into the waste figure. -/
theorem C6_no_profile_validation_witness :
    (runCalculator respEx cdBad).isOk = true
    ∧ dictGet (calculate_scope3_emissions respEx cdBad).2 "waste" 0 = -1 := by
  have h := C6_no_profile_validation respEx cdBad
    (by rw [respEx_cdBad_total]; norm_num) (by norm_num [cdBad])
    (by norm_num [calculate_scope2_emissions, respEx])
  refine ⟨h.1, ?_⟩
  rw [h.2.1]
  norm_num [cdBad]

/-- Claim C7 counterexample: for baseline 1000 the year-10 target computed by
`calculate_reduction_pathway` is 1000·0.958¹⁰ ∈ (651.1, 651.2), which is more
than 2 tonnes below the claimed ≈ 653.4 (the year-1 target 958 is as
claimed). -/
theorem C7_counterexample :
    (calculate_reduction_pathway 1000).map (fun r => r.targets.map (fun rt => rt.target))
      = .ok [958, 1000 * ((1:ℚ) - annual_reduction_rate) ^ 3,
             1000 * ((1:ℚ) - annual_reduction_rate) ^ 5,
             1000 * ((1:ℚ) - annual_reduction_rate) ^ 10]
    ∧ 6511/10 < 1000 * ((1:ℚ) - annual_reduction_rate) ^ 10
    ∧ 1000 * ((1:ℚ) - annual_reduction_rate) ^ 10 < 6512/10
    ∧ 6534/10 - 1000 * ((1:ℚ) - annual_reduction_rate) ^ 10 > 2 := by
  refine ⟨?_, by norm_num [annual_reduction_rate], by norm_num [annual_reduction_rate],
    by norm_num [annual_reduction_rate]⟩
  rw [pathway_ok 1000 (by norm_num)]
  simp [Except.map]
  norm_num [annual_reduction_rate]

/-- Claim C7 (amended): for every positive baseline the pathway targets are
`baseline * (1 - 0.042) ^ h` for h ∈ {1, 3, 5, 10}, the reduction is
baseline − target and the reduction percentage is (reduction / baseline)·100;
at baseline 1000 the year-1 target is exactly 958 and the year-10 target lies
in (651.1, 651.2) — approximately 651.1 tonnes, not 653.4. -/
theorem C7_pathway_formulas (b : ℚ) (hb : 0 < b) :
    calculate_reduction_pathway b =
      .ok ⟨[⟨1, b * (1 - annual_reduction_rate) ^ 1,
             b - b * (1 - annual_reduction_rate) ^ 1,
             (b - b * (1 - annual_reduction_rate) ^ 1) / b * 100⟩,
            ⟨3, b * (1 - annual_reduction_rate) ^ 3,
             b - b * (1 - annual_reduction_rate) ^ 3,
             (b - b * (1 - annual_reduction_rate) ^ 3) / b * 100⟩,
            ⟨5, b * (1 - annual_reduction_rate) ^ 5,
             b - b * (1 - annual_reduction_rate) ^ 5,
             (b - b * (1 - annual_reduction_rate) ^ 5) / b * 100⟩,
            ⟨10, b * (1 - annual_reduction_rate) ^ 10,
             b - b * (1 - annual_reduction_rate) ^ 10,
             (b - b * (1 - annual_reduction_rate) ^ 10) / b * 100⟩],
           b * (5/10), b * (1/10), (b - b * (5/10)) / 6⟩
    ∧ annual_reduction_rate = 42/1000
    ∧ 1000 * ((1:ℚ) - annual_reduction_rate) ^ 1 = 958
    ∧ 6511/10 < 1000 * ((1:ℚ) - annual_reduction_rate) ^ 10
    ∧ 1000 * ((1:ℚ) - annual_reduction_rate) ^ 10 < 6512/10 :=
  ⟨pathway_ok b (ne_of_gt hb), by norm_num [annual_reduction_rate],
   by norm_num [annual_reduction_rate], by norm_num [annual_reduction_rate],
   by norm_num [annual_reduction_rate]⟩

/-- Witness for C7: the pathway at the concrete positive baseline 1000. -/
theorem C7_pathway_formulas_witness :
    ((0:ℚ) < 1000) ∧ (calculate_reduction_pathway 1000).isOk = true := by
  refine ⟨by norm_num, ?_⟩
  rw [(C7_pathway_formulas 1000 (by norm_num)).1]
  rfl

/-- Claim C8: whenever the total is nonzero, the reported hotspots are the
top 5 of the stable descending sort of the flattened categories (Scope 1
entries, the synthetic location-based Scope 2 electricity entry, Scope 3
entries), each with its share of total_location; the sorted list is pairwise
descending in amount (so an entry with a strictly larger amount always
precedes one with a smaller amount), and for each amount value the entries
keep their original insertion order (stability). -/
theorem C8_hotspots (s1 s2l s2m s3 : ℚ) (b1 b3 : List (String × ℚ))
    (h : s1 + s2l + s3 ≠ 0) :
    (analyze_complete_footprint s1 s2l s2m s3 b1 b3).map AnalysisResult.hotspots
      = .ok (((sortDescStable (all_categories b1 s2l b3)).take 5).map
          (fun p => (p.1, p.2, p.2 / (s1 + s2l + s3) * 100)))
    ∧ (sortDescStable (all_categories b1 s2l b3)).Pairwise (fun a b => b.2 ≤ a.2)
    ∧ ∀ v : ℚ, (sortDescStable (all_categories b1 s2l b3)).filter (fun p => p.2 == v)
        = (all_categories b1 s2l b3).filter (fun p => p.2 == v) := by
  refine ⟨?_, sortDescStable_pairwise _, fun v => filter_sortDescStable _ v⟩
  rw [analyze_ok _ _ _ _ _ _ h]
  rfl

/-- Witness for C8: a concrete two-entry Scope 1 breakdown; the hotspots come
out sorted descending with their shares of the total 100. -/
theorem C8_hotspots_witness :
    (analyze_complete_footprint 100 0 0 0
        [("stationary_combustion", 60), ("mobile_combustion", 40)] []).map
        AnalysisResult.hotspots
      = .ok [("Scope 1 - stationary_combustion", 60, 60),
             ("Scope 1 - mobile_combustion", 40, 40),
             ("Scope 2 - Electricity", 0, 0)] := by
  rw [(C8_hotspots 100 0 0 0 [("stationary_combustion", 60), ("mobile_combustion", 40)] []
    (by norm_num)).1]
  norm_num [sortDescStable, all_categories, insertDesc]
  exact ⟨rfl, rfl⟩

/-- Claim C9: the market-based payload splits consumption into a grid portion
`consumption * (1 - renewable/100)` and a renewable portion
`consumption * (renewable/100)` with explicit emission factor 0; under the
factor model of the service (one non-negative per-kWh factor for grid
electricity, identical for both methods) the market-based total never
exceeds the location-based total, with equality when the renewable share is
0. -/
theorem C9_market_le_location (cd : CompanyData) (f : ℚ)
    (hc : 0 ≤ cd.electricity_consumption) (hr0 : 0 ≤ cd.renewable_energy_percent)
    (_hr1 : cd.renewable_energy_percent ≤ 100) (hf : 0 ≤ f) :
    (market_payload_sources cd).map (fun s => s.amount)
      = [cd.electricity_consumption * (1 - cd.renewable_energy_percent / 100),
         cd.electricity_consumption * (cd.renewable_energy_percent / 100)]
    ∧ (market_payload_sources cd).map (fun s => s.emission_factor) = [none, some 0]
    ∧ scope2_market_model cd f ≤ scope2_location_model cd f
    ∧ (cd.renewable_energy_percent = 0 →
        scope2_market_model cd f = scope2_location_model cd f) := by
  refine ⟨rfl, rfl, ?_, ?_⟩
  · simp only [scope2_market_model, scope2_location_model, serviceElectricity,
      market_payload_sources, List.map_cons, List.map_nil, List.sum_cons,
      List.sum_nil, Option.getD_none, Option.getD_some]
    nlinarith [mul_nonneg (mul_nonneg hc hf) hr0]
  · intro h0
    simp [scope2_market_model, scope2_location_model, serviceElectricity,
      market_payload_sources, h0]

/-- Witness for C9: the example profile (500000 kWh, 30% renewable) at grid
factor 0.0005 — market-based 175 ≤ location-based 250, matching the spec's
scenario. -/
theorem C9_market_le_location_witness :
    (0 ≤ (({} : CompanyData)).electricity_consumption)
    ∧ (0 ≤ (({} : CompanyData)).renewable_energy_percent)
    ∧ ((({} : CompanyData)).renewable_energy_percent ≤ 100)
    ∧ (0 ≤ (5/10000 : ℚ))
    ∧ scope2_market_model {} (5/10000) ≤ scope2_location_model {} (5/10000)
    ∧ scope2_market_model {} (5/10000) = 175
    ∧ scope2_location_model {} (5/10000) = 250 := by
  refine ⟨by norm_num, by norm_num, by norm_num, by norm_num,
    (C9_market_le_location {} (5/10000) (by norm_num) (by norm_num) (by norm_num)
      (by norm_num)).2.2.1, ?_, ?_⟩ <;>
    norm_num [scope2_market_model, scope2_location_model, serviceElectricity,
      market_payload_sources]

/-- Claim C10: the intensity reported by the analysis is always
total_location / 100 — the employee count is hard-coded to 100 at line 392 —
and for every employee count other than 100 (and a nonzero total) this
differs from total_location divided by the actual employee count. -/
theorem C10_intensity (s1 s2l s2m s3 : ℚ) (b1 b3 : List (String × ℚ)) (e : ℚ)
    (h : s1 + s2l + s3 ≠ 0) (he : e ≠ 100) (he0 : e ≠ 0) :
    (analyze_complete_footprint s1 s2l s2m s3 b1 b3).map AnalysisResult.intensity
      = .ok ((s1 + s2l + s3) / 100)
    ∧ (s1 + s2l + s3) / 100 ≠ (s1 + s2l + s3) / e := by
  refine ⟨by rw [analyze_ok _ _ _ _ _ _ h]; rfl, ?_⟩
  intro heq
  rw [div_eq_div_iff (by norm_num) he0] at heq
  exact he (mul_left_cancel₀ h heq)

/-- Witness for C10: a run with total 100 and an actual employee count of 50
— the reported intensity is 1 tonne/employee instead of 2. -/
theorem C10_intensity_witness :
    ((100:ℚ) + 0 + 0 ≠ 0) ∧ ((50:ℚ) ≠ 100) ∧ ((50:ℚ) ≠ 0)
    ∧ (analyze_complete_footprint 100 0 0 0 [] []).map AnalysisResult.intensity = .ok 1
    ∧ ((100:ℚ) + 0 + 0) / 100 ≠ ((100:ℚ) + 0 + 0) / 50 := by
  have h := C10_intensity 100 0 0 0 [] [] 50 (by norm_num) (by norm_num) (by norm_num)
  refine ⟨by norm_num, by norm_num, by norm_num, ?_, h.2⟩
  rw [h.1]
  norm_num

end CombineEmissions
